import Mathlib

/-!
Verification of the receptionist agent (src/reference/solution.py).

The agent holds a static table `DEPARTMENTS` mapping department ids to
phone number, description and an open-hours window, plus five SWAIG tool
handlers.  We embed the table, the availability helper
`_is_department_open`, and the five handlers as pure Lean functions.

The wall clock (`datetime.now()` in the source) is modelled by the
structure `DateTime`, carrying the `hour` field the availability check
reads and an `isoString` field modelling `datetime.now().isoformat()`.
Each handler that touches the clock receives the ambient `DateTime` as an
explicit argument.

A `SwaigFunctionResult` is modelled as a record of the response string,
the `post_process` flag, the optional global-data update issued via
`update_global_data`, and the optional connect directive issued via
`.connect(number, final)`.  A Python handler that could raise an uncaught
exception (a direct `DEPARTMENTS[...]` subscript, or a subscript on the
result of `.get`) is embedded as an `Option`-returning function, `none`
standing for the exception.
-/

/-- Values stored in call-global data: Python strings, booleans and `None`. -/
inductive PyValue where
  | str : String → PyValue
  | bool : Bool → PyValue
  | none : PyValue
  deriving DecidableEq, Repr

/-- The ambient wall clock, modelling `datetime.now()`: the `hour` read by
the availability check and the `isoformat()` rendering stored in context
records. -/
structure DateTime where
  hour : Nat
  isoString : String
  deriving DecidableEq, Repr

/-- One entry of the static department table: phone number, description
and `(open_hour, close_hour)` window. -/
structure DeptInfo where
  number : String
  description : String
  hours : Nat × Nat
  deriving DecidableEq, Repr

/-- The result object a handler returns, modelling `SwaigFunctionResult`:
response text, `post_process` flag, the optional `update_global_data`
payload and the optional `connect` directive `(number, final)`. -/
structure SwaigFunctionResult where
  response : String
  post_process : Bool := false
  global_data_update : Option (List (String × PyValue)) := Option.none
  connect_to : Option (String × Bool) := Option.none
  deriving DecidableEq, Repr

/-- The static department table of `ReceptionistAgent.DEPARTMENTS`,
in source order. -/
def DEPARTMENTS : List (String × DeptInfo) :=
  [ ("sales",   { number := "+15551111111",
                  description := "New purchases and pricing",
                  hours := (9, 18) }),
    ("support", { number := "+15552222222",
                  description := "Technical assistance",
                  hours := (8, 20) }),
    ("billing", { number := "+15553333333",
                  description := "Payments and invoices",
                  hours := (9, 17) }),
    ("returns", { number := "+15554444444",
                  description := "Returns and exchanges",
                  hours := (10, 16) }) ]

/-- Character-level worker for `pyTitle`: the flag records whether the
previous character was alphabetic. -/
def titleChars : List Char → Bool → List Char
  | [], _ => []
  | c :: cs, prevAlpha =>
    if c.isAlpha then
      (if prevAlpha then c.toLower else c.toUpper) :: titleChars cs true
    else
      c :: titleChars cs false

/-- Python `str.title()`: uppercase each letter that starts an alphabetic
run, lowercase the rest. -/
def pyTitle (x : String) : String :=
  String.mk (titleChars x.data false)

/-- Python `str.lower()`: lowercase every character. -/
def pyLower (x : String) : String :=
  String.mk (x.data.map Char.toLower)

/-- Python `x or d` for an optional string `x`: `d` when `x` is `None` or
empty (falsy), else the string itself. -/
def pyOrStr (x : Option String) (d : String) : String :=
  match x with
  | Option.some s => if s.isEmpty then d else s
  | Option.none => d

/-- An optional Python string as a `PyValue` (`None` becomes null). -/
def pyValueOfOpt (x : Option String) : PyValue :=
  match x with
  | Option.some s => PyValue.str s
  | Option.none => PyValue.none

/-- `_is_department_open`: look the department up in the table; unknown
ids give `(False, "Unknown department")`; otherwise compare the wall-clock
hour against the half-open window and, when closed, format the
hours-of-operation message. -/
def _is_department_open (department : String) (now : DateTime) :
    Bool × Option String :=
  match DEPARTMENTS.lookup department with
  | Option.none => (false, Option.some "Unknown department")
  | Option.some dept_info =>
    let start := dept_info.hours.1
    let «end» := dept_info.hours.2
    if start ≤ now.hour ∧ now.hour < «end» then
      (true, Option.none)
    else
      (false, Option.some (pyTitle department ++ " is open " ++
        toString start ++ ":00 to " ++ toString «end» ++ ":00"))

/-- `list_departments`: enumerate the table with descriptions in one
sentence. -/
def list_departments : SwaigFunctionResult :=
  { response := ("Our departments: " ++ String.intercalate "; "
      (DEPARTMENTS.map (fun p => pyTitle p.1 ++ ": " ++ p.2.description))) }

/-- `check_availability`: lowercase the id, consult
`_is_department_open`; on open, re-fetch the entry with `.get` and
subscript it (`none` models the exception were the entry absent) to
report the closing hour; on closed, relay the message. -/
def check_availability (department : String) (now : DateTime) :
    Option SwaigFunctionResult :=
  let dep := pyLower department
  match _is_department_open dep now with
  | (true, _) =>
    match DEPARTMENTS.lookup dep with
    | Option.some dept_info =>
      Option.some { response := (pyTitle dep ++ " is open until " ++
        toString dept_info.hours.2 ++ ":00. Would you like me to transfer you?") }
    | Option.none => Option.none
  | (false, message) =>
    Option.some { response := message.getD "" }

/-- `transfer_to_department`: lowercase the id; unknown ids list the
valid ones; closed departments get an apology with the hours message; an
open department gets a response plus a final connect directive to its
number. -/
def transfer_to_department (department : String) (now : DateTime) :
    SwaigFunctionResult :=
  let dep := pyLower department
  match DEPARTMENTS.lookup dep with
  | Option.none =>
    { response := ("Unknown department. Available: " ++
        String.intercalate ", " (DEPARTMENTS.map Prod.fst)) }
  | Option.some dept_info =>
    match _is_department_open dep now with
    | (false, message) =>
      { response := ("I'm sorry, " ++ message.getD "" ++
          ". Would you like to leave a message or try a different department?") }
    | (true, _) =>
      { response := "Connecting you to " ++ dep ++ " now.",
        connect_to := Option.some (dept_info.number, true) }

/-- `transfer_with_context`: lowercase the id; when not open (unknown or
closed) apologize and offer voicemail; otherwise subscript the table
directly (`none` models the `KeyError` were the entry absent), attach the
transfer context via `update_global_data` and issue the final connect
directive, with `post_process` set. -/
def transfer_with_context (department : String) (reason : String)
    (caller_name : Option String) (now : DateTime) :
    Option SwaigFunctionResult :=
  let dep := pyLower department
  match _is_department_open dep now with
  | (false, message) =>
    Option.some { response := ("Sorry, " ++ message.getD "" ++
      ". Would you like to leave a voicemail?") }
  | (true, _) =>
    match DEPARTMENTS.lookup dep with
    | Option.none => Option.none
    | Option.some dept_info =>
      Option.some
        { response := ("I'm transferring you to " ++ dep ++
            ". I'll let them know about your " ++ reason ++ "."),
          post_process := true,
          global_data_update := Option.some
            [ ("transfer_reason", PyValue.str reason),
              ("caller_name", PyValue.str (pyOrStr caller_name "Unknown")),
              ("transfer_time", PyValue.str now.isoString),
              ("from_receptionist", PyValue.bool true) ],
          connect_to := Option.some (dept_info.number, true) }

/-- `leave_voicemail`: unconditionally record the voicemail into
call-global data and confirm; no table lookup, no availability check. -/
def leave_voicemail (department : String) (message : String)
    (callback_number : Option String) (now : DateTime) :
    SwaigFunctionResult :=
  { response := ("Your message for " ++ department ++
      " has been recorded. They'll receive it when they open."),
    global_data_update := Option.some
      [ ("voicemail_department", PyValue.str department),
        ("voicemail_message", PyValue.str message),
        ("voicemail_callback", pyValueOfOpt callback_number),
        ("voicemail_time", PyValue.str now.isoString) ] }

/-- Whether the first character list is an initial segment of the
second. -/
def startsWithChars : List Char → List Char → Bool
  | [], _ => true
  | _ :: _, [] => false
  | p :: ps, c :: cs => (p == c) && startsWithChars ps cs

/-- Whether the first character list occurs contiguously inside the
second. -/
def hasSubChars (pat : List Char) : List Char → Bool
  | [] => startsWithChars pat []
  | c :: cs => startsWithChars pat (c :: cs) || hasSubChars pat cs

/-- A pattern string occurs somewhere inside a string. -/
def mentions (pat s : String) : Bool :=
  hasSubChars pat.data s.data

/-- Unknown id: the availability helper reports closed with the fixed
message. -/
theorem isOpen_lookup_none {d : String} {now : DateTime}
    (h : DEPARTMENTS.lookup d = Option.none) :
    _is_department_open d now = (false, Option.some "Unknown department") := by
  unfold _is_department_open
  rw [h]

/-- Known id inside its window: the availability helper reports open with
no message. -/
theorem isOpen_lookup_some_open {d : String} {info : DeptInfo}
    {now : DateTime} (h : DEPARTMENTS.lookup d = Option.some info)
    (hc : info.hours.1 ≤ now.hour ∧ now.hour < info.hours.2) :
    _is_department_open d now = (true, Option.none) := by
  unfold _is_department_open
  rw [h]
  simp [hc]

/-- Known id outside its window: the availability helper reports closed
with the hours-of-operation message. -/
theorem isOpen_lookup_some_closed {d : String} {info : DeptInfo}
    {now : DateTime} (h : DEPARTMENTS.lookup d = Option.some info)
    (hc : ¬ (info.hours.1 ≤ now.hour ∧ now.hour < info.hours.2)) :
    _is_department_open d now = (false, Option.some (pyTitle d ++
      " is open " ++ toString info.hours.1 ++ ":00 to " ++
      toString info.hours.2 ++ ":00")) := by
  unfold _is_department_open
  rw [h]
  simp [hc]

/-- Claim C1: for every department id in the table and every wall-clock
hour, `_is_department_open` reports open exactly when
`open_hour ≤ h < close_hour`; the hour equal to `open_hour` is open and
the hour equal to `close_hour` is closed. -/
theorem is_open_iff_in_window (d : String) (info : DeptInfo)
    (now : DateTime) (h : DEPARTMENTS.lookup d = Option.some info) :
    (_is_department_open d now).1 = true ↔
      info.hours.1 ≤ now.hour ∧ now.hour < info.hours.2 := by
  unfold _is_department_open
  rw [h]
  by_cases hc : info.hours.1 ≤ now.hour ∧ now.hour < info.hours.2 <;>
    simp [hc]

/-- Witness for C1: at the table entry for sales and hour 9 (the open
boundary) the check reports open, matching `9 ≤ 9 < 18`. -/
theorem is_open_iff_in_window_witness :
    (_is_department_open "sales" ⟨9, "T"⟩).1 = true ↔ 9 ≤ 9 ∧ 9 < 18 :=
  is_open_iff_in_window "sales"
    { number := "+15551111111", description := "New purchases and pricing",
      hours := (9, 18) } ⟨9, "T"⟩ (by decide)

/-- Counterexample to claim C2: `_is_department_open` takes no
`current_hour` argument; it reads the hour from the ambient wall clock,
so two invocations with the same department argument made at wall-clock
times with different hours disagree. -/
theorem is_open_depends_on_wall_clock :
    _is_department_open "sales" ⟨10, "a"⟩ ≠
      _is_department_open "sales" ⟨19, "b"⟩ := by
  decide

/-- Claim C2 (amended): the availability check reads the current hour
internally from the wall clock rather than taking it as a parameter; it
is deterministic in the department id and that wall-clock hour: two
invocations whose clock readings share the same hour return the same
result, whatever the rest of the reading. -/
theorem is_open_deterministic_in_hour (d : String) (t₁ t₂ : DateTime)
    (h : t₁.hour = t₂.hour) :
    _is_department_open d t₁ = _is_department_open d t₂ := by
  unfold _is_department_open
  rw [h]

/-- Witness for C2 (amended): two clock readings at hour 10 with
different isoformat renderings give the same availability answer. -/
theorem is_open_deterministic_in_hour_witness :
    _is_department_open "sales" ⟨10, "a"⟩ =
      _is_department_open "sales" ⟨10, "b"⟩ :=
  is_open_deterministic_in_hour "sales" ⟨10, "a"⟩ ⟨10, "b"⟩ rfl

/-- Counterexample to claim C3: on the unknown id "hr",
`check_availability` answers just "Unknown department", a response that
does not mention "sales" — so not every handler enumerates the
configured department names. -/
theorem unknown_department_not_enumerated :
    (check_availability "hr" ⟨10, "T"⟩).map SwaigFunctionResult.response =
      Option.some "Unknown department" ∧
    mentions "sales" "Unknown department" = false := by
  decide

/-- Claim C3 (amended): for every id whose lowercased form is not in the
table, the three id-taking handlers return their unknown-department
responses, but only `transfer_to_department` enumerates the configured
department names ("Unknown department. Available: sales, support,
billing, returns"); `check_availability` answers just "Unknown
department" and `transfer_with_context` answers "Sorry, Unknown
department. Would you like to leave a voicemail?". -/
theorem unknown_department_responses (d reason : String)
    (cn : Option String) (now : DateTime)
    (h : DEPARTMENTS.lookup (pyLower d) = Option.none) :
    check_availability d now =
      Option.some { response := "Unknown department" } ∧
    transfer_to_department d now =
      { response := ("Unknown department. Available: " ++
          String.intercalate ", " (DEPARTMENTS.map Prod.fst)) } ∧
    String.intercalate ", " (DEPARTMENTS.map Prod.fst) =
      "sales, support, billing, returns" ∧
    transfer_with_context d reason cn now = Option.some
      { response := "Sorry, Unknown department. Would you like to leave a voicemail?" } := by
  refine ⟨?_, ?_, rfl, ?_⟩
  · simp [check_availability, isOpen_lookup_none h]
  · simp [transfer_to_department, h]
  · simp [transfer_with_context, isOpen_lookup_none h]

/-- Witness for C3 (amended): the three unknown-department responses at
the concrete id "hr", whose lowercase is absent from the table. -/
theorem unknown_department_responses_witness :
    check_availability "hr" ⟨11, "T"⟩ =
      Option.some { response := "Unknown department" } ∧
    transfer_to_department "hr" ⟨11, "T"⟩ =
      { response := ("Unknown department. Available: " ++
          String.intercalate ", " (DEPARTMENTS.map Prod.fst)) } ∧
    String.intercalate ", " (DEPARTMENTS.map Prod.fst) =
      "sales, support, billing, returns" ∧
    transfer_with_context "hr" "pricing" Option.none ⟨11, "T"⟩ = Option.some
      { response := "Sorry, Unknown department. Would you like to leave a voicemail?" } :=
  unknown_department_responses "hr" "pricing" Option.none ⟨11, "T"⟩
    (by decide)

/-- Claim C4: `transfer_to_department` emits a connect directive exactly
when the (lowercased) id is in the table and the department is open at
the wall-clock hour, and the directive then carries the department's
configured number with the final flag set. -/
theorem transfer_connect_iff_open (d : String) (now : DateTime) :
    ((transfer_to_department d now).connect_to ≠ Option.none ↔
      (∃ info, DEPARTMENTS.lookup (pyLower d) = Option.some info ∧
        (_is_department_open (pyLower d) now).1 = true)) ∧
    (∀ info, DEPARTMENTS.lookup (pyLower d) = Option.some info →
      (_is_department_open (pyLower d) now).1 = true →
      (transfer_to_department d now).connect_to =
        Option.some (info.number, true)) := by
  cases hl : DEPARTMENTS.lookup (pyLower d) with
  | none =>
    constructor
    · simp [transfer_to_department, hl]
    · intro info hi
      cases hi
  | some info =>
    by_cases hc : info.hours.1 ≤ now.hour ∧ now.hour < info.hours.2
    · constructor
      · constructor
        · intro _
          exact ⟨info, rfl, by rw [isOpen_lookup_some_open hl hc]⟩
        · intro _
          simp [transfer_to_department, hl, isOpen_lookup_some_open hl hc]
      · intro info' hi' _
        cases hi'
        simp [transfer_to_department, hl, isOpen_lookup_some_open hl hc]
    · constructor
      · constructor
        · intro hne
          exfalso
          apply hne
          simp [transfer_to_department, hl, isOpen_lookup_some_closed hl hc]
        · rintro ⟨info', hi', ho'⟩
          cases hi'
          rw [isOpen_lookup_some_closed hl hc] at ho'
          simp at ho'
      · intro info' hi' ho'
        cases hi'
        rw [isOpen_lookup_some_closed hl hc] at ho'
        simp at ho'

/-- Witness for C4: at id "sales" and hour 10 the directive is a final
connect to the configured sales number. -/
theorem transfer_connect_iff_open_witness :
    (transfer_to_department "sales" ⟨10, "T"⟩).connect_to =
      Option.some ("+15551111111", true) :=
  (transfer_connect_iff_open "sales" ⟨10, "T"⟩).2
    { number := "+15551111111", description := "New purchases and pricing",
      hours := (9, 18) } (by decide) (by decide)

/-- Counterexample to claim C5: at an empty (but given) caller name, the
context stores "Unknown" rather than the given name — Python's
`caller_name or "Unknown"` treats the empty string as falsy, not only an
omitted name. -/
theorem caller_name_empty_stored_as_unknown :
    (transfer_with_context "sales" "pricing" (Option.some "") ⟨10, "T"⟩).map
        SwaigFunctionResult.global_data_update =
      Option.some (Option.some
        [ ("transfer_reason", PyValue.str "pricing"),
          ("caller_name", PyValue.str "Unknown"),
          ("transfer_time", PyValue.str "T"),
          ("from_receptionist", PyValue.bool true) ]) ∧
    ("" : String) ≠ "Unknown" := by
  decide

/-- Claim C5 (amended): for every known open department,
`transfer_with_context` returns one result that both attaches the
call-global context — keys exactly `transfer_reason` (the given reason),
`caller_name` (the given name, or "Unknown" when omitted or empty),
`transfer_time` (the clock's isoformat timestamp), `from_receptionist`
set to true — and carries the final connect directive to that
department's configured number. -/
theorem transfer_with_context_attaches (d reason : String)
    (cn : Option String) (now : DateTime) (info : DeptInfo)
    (h : DEPARTMENTS.lookup (pyLower d) = Option.some info)
    (ho : info.hours.1 ≤ now.hour ∧ now.hour < info.hours.2) :
    transfer_with_context d reason cn now = Option.some
      { response := ("I'm transferring you to " ++ pyLower d ++
          ". I'll let them know about your " ++ reason ++ "."),
        post_process := true,
        global_data_update := Option.some
          [ ("transfer_reason", PyValue.str reason),
            ("caller_name", PyValue.str (pyOrStr cn "Unknown")),
            ("transfer_time", PyValue.str now.isoString),
            ("from_receptionist", PyValue.bool true) ],
        connect_to := Option.some (info.number, true) } := by
  simp [transfer_with_context, isOpen_lookup_some_open h ho, h]

/-- Witness for C5 (amended): transferring to sales at hour 10 with an
omitted caller name attaches the context with `caller_name` "Unknown"
and connects to the sales number, final. -/
theorem transfer_with_context_attaches_witness :
    transfer_with_context "sales" "pricing" Option.none ⟨10, "T"⟩ =
      Option.some
        { response := ("I'm transferring you to " ++ pyLower "sales" ++
            ". I'll let them know about your " ++ "pricing" ++ "."),
          post_process := true,
          global_data_update := Option.some
            [ ("transfer_reason", PyValue.str "pricing"),
              ("caller_name", PyValue.str (pyOrStr Option.none "Unknown")),
              ("transfer_time", PyValue.str "T"),
              ("from_receptionist", PyValue.bool true) ],
          connect_to := Option.some ("+15551111111", true) } :=
  transfer_with_context_attaches "sales" "pricing" Option.none ⟨10, "T"⟩
    { number := "+15551111111", description := "New purchases and pricing",
      hours := (9, 18) } (by decide) (by decide)

/-- Claim C6: `leave_voicemail` always succeeds identically: its result
never depends on the clock's hour (so open and closed departments are
treated alike), and for every department, message and optional callback
number it records the voicemail into call-global data and returns the
confirmation string. -/
theorem leave_voicemail_always_succeeds (d m : String) (cb : Option String)
    (now now' : DateTime) (h : now.isoString = now'.isoString) :
    leave_voicemail d m cb now = leave_voicemail d m cb now' ∧
    leave_voicemail d m cb now =
      { response := ("Your message for " ++ d ++
          " has been recorded. They'll receive it when they open."),
        global_data_update := Option.some
          [ ("voicemail_department", PyValue.str d),
            ("voicemail_message", PyValue.str m),
            ("voicemail_callback", pyValueOfOpt cb),
            ("voicemail_time", PyValue.str now.isoString) ] } := by
  constructor
  · unfold leave_voicemail
    rw [h]
  · rfl

/-- Witness for C6: a voicemail for the closed returns department at hour
20, with no callback number, still succeeds with the recorded payload;
the two clock readings share the timestamp but differ in hour (20 closed
versus 12 open for returns). -/
theorem leave_voicemail_always_succeeds_witness :
    leave_voicemail "returns" "call me" Option.none ⟨20, "T"⟩ =
        leave_voicemail "returns" "call me" Option.none ⟨12, "T"⟩ ∧
    leave_voicemail "returns" "call me" Option.none ⟨20, "T"⟩ =
      { response := ("Your message for " ++ "returns" ++
          " has been recorded. They'll receive it when they open."),
        global_data_update := Option.some
          [ ("voicemail_department", PyValue.str "returns"),
            ("voicemail_message", PyValue.str "call me"),
            ("voicemail_callback", pyValueOfOpt Option.none),
            ("voicemail_time", PyValue.str "T") ] } :=
  leave_voicemail_always_succeeds "returns" "call me" Option.none
    ⟨20, "T"⟩ ⟨12, "T"⟩ rfl

/-- Claim C7: a known department closed at the queried hour yields false
with the title-cased hours-of-operation message, and in particular the
check on sales answers `(true, none)` at hour 10 and
`(false, "Sales is open 9:00 to 18:00")` at hour 19. -/
theorem closed_reason_message (d : String) (info : DeptInfo)
    (now : DateTime) (h : DEPARTMENTS.lookup d = Option.some info)
    (hc : ¬ (info.hours.1 ≤ now.hour ∧ now.hour < info.hours.2)) :
    _is_department_open d now = (false, Option.some (pyTitle d ++
        " is open " ++ toString info.hours.1 ++ ":00 to " ++
        toString info.hours.2 ++ ":00")) ∧
    _is_department_open "sales" ⟨10, "T"⟩ = (true, Option.none) ∧
    _is_department_open "sales" ⟨19, "T"⟩ =
      (false, Option.some "Sales is open 9:00 to 18:00") := by
  refine ⟨isOpen_lookup_some_closed h hc, by decide, by decide⟩

/-- Witness for C7: billing at hour 20 is closed with the message
"Billing is open 9:00 to 17:00", alongside the two sales examples. -/
theorem closed_reason_message_witness :
    _is_department_open "billing" ⟨20, "T"⟩ = (false, Option.some
        (pyTitle "billing" ++ " is open " ++ toString 9 ++ ":00 to " ++
          toString 17 ++ ":00")) ∧
    _is_department_open "sales" ⟨10, "T"⟩ = (true, Option.none) ∧
    _is_department_open "sales" ⟨19, "T"⟩ =
      (false, Option.some "Sales is open 9:00 to 18:00") :=
  closed_reason_message "billing"
    { number := "+15553333333", description := "Payments and invoices",
      hours := (9, 17) } ⟨20, "T"⟩ (by decide) (by decide)

/-- Claim C8: every handler is total: for all string arguments, optional
arguments and clock readings, each of the five handlers returns a result
object — in particular the two handlers whose Python bodies contain a
subscript that could raise (`check_availability`,
`transfer_with_context`) never hit it. -/
theorem handlers_total (d reason m : String) (cn cb : Option String)
    (now : DateTime) :
    (check_availability d now).isSome = true ∧
    (transfer_with_context d reason cn now).isSome = true ∧
    (∃ r, list_departments = r) ∧
    (∃ r, transfer_to_department d now = r) ∧
    (∃ r, leave_voicemail d m cb now = r) := by
  refine ⟨?_, ?_, ⟨_, rfl⟩, ⟨_, rfl⟩, ⟨_, rfl⟩⟩
  · cases hl : DEPARTMENTS.lookup (pyLower d) with
    | none => simp [check_availability, isOpen_lookup_none hl]
    | some info =>
      by_cases hc : info.hours.1 ≤ now.hour ∧ now.hour < info.hours.2
      · simp [check_availability, isOpen_lookup_some_open hl hc, hl]
      · simp [check_availability, isOpen_lookup_some_closed hl hc]
  · cases hl : DEPARTMENTS.lookup (pyLower d) with
    | none => simp [transfer_with_context, isOpen_lookup_none hl]
    | some info =>
      by_cases hc : info.hours.1 ≤ now.hour ∧ now.hour < info.hours.2
      · simp [transfer_with_context, isOpen_lookup_some_open hl hc, hl]
      · simp [transfer_with_context, isOpen_lookup_some_closed hl hc]

/-- Claim C9: an id whose lowercased form is outside the table sends
`transfer_with_context` down the closed branch with the "Unknown
department" message: the result exists (the direct table subscript is
never reached, so nothing is raised), carries no global-data context and
no connect directive. -/
theorem transfer_with_context_unknown (d reason : String)
    (cn : Option String) (now : DateTime)
    (h : DEPARTMENTS.lookup (pyLower d) = Option.none) :
    transfer_with_context d reason cn now = Option.some
      { response := "Sorry, Unknown department. Would you like to leave a voicemail?" } := by
  simp [transfer_with_context, isOpen_lookup_none h]

/-- Witness for C9: the unknown id "hr" at hour 12 gets the voicemail
offer with no context attached and no connect directive. -/
theorem transfer_with_context_unknown_witness :
    transfer_with_context "hr" "pricing" (Option.some "Pat") ⟨12, "T"⟩ =
      Option.some
        { response := "Sorry, Unknown department. Would you like to leave a voicemail?" } :=
  transfer_with_context_unknown "hr" "pricing" (Option.some "Pat")
    ⟨12, "T"⟩ (by decide)

/-- Claim C10: `leave_voicemail` never validates the department id: for
every department string, the voicemail is recorded into call-global data
— with the `voicemail_callback` key present and null when the callback
number is omitted, and holding the number when supplied — and the
confirmation string names the department verbatim. -/
theorem leave_voicemail_no_validation (d m c : String) (now : DateTime) :
    leave_voicemail d m Option.none now =
      { response := ("Your message for " ++ d ++
          " has been recorded. They'll receive it when they open."),
        global_data_update := Option.some
          [ ("voicemail_department", PyValue.str d),
            ("voicemail_message", PyValue.str m),
            ("voicemail_callback", PyValue.none),
            ("voicemail_time", PyValue.str now.isoString) ] } ∧
    leave_voicemail d m (Option.some c) now =
      { response := ("Your message for " ++ d ++
          " has been recorded. They'll receive it when they open."),
        global_data_update := Option.some
          [ ("voicemail_department", PyValue.str d),
            ("voicemail_message", PyValue.str m),
            ("voicemail_callback", PyValue.str c),
            ("voicemail_time", PyValue.str now.isoString) ] } :=
  ⟨rfl, rfl⟩
